import Mathlib

/-!
Shallow embedding of `src/CalcBlowingSnow.c` (VIC blowing-snow sublimation
module).  C doubles are modelled as real numbers; code paths that terminate
the process (`exit(0)` after the bracketing diagnostic in `rtnewt`,
`nrerror` in `qromb`) are modelled as `Option.none`; every value-returning
path is `Option.some`.  The compile-time feature defines of the source
(`SIMPLE 0`, `SPATIAL_WIND 1`, `VAR_THRESHOLD 1`, `FETCH 1`, `CALC_PROB 1`)
are kept as named constants and tested exactly as the C preprocessor /
`if(...)` would.  In the branch taken when spatial wind variability is off,
the C code reads the local variable `U10` before ever assigning it
(undefined behaviour); that indeterminate value is made explicit as the
extra parameter `u10Uninit` of the driver.
-/

namespace BlowingSnow

noncomputable section

open Real
open scoped Classical

/-- `#define CSALT 0.68` (CalcBlowingSnow.c line 26). -/
def CSALT : ℝ := 0.68

/-- `#define UTHRESH 0.25` (line 27). -/
def UTHRESH : ℝ := 0.25

/-- `#define KIN_VIS 1.3e-5` (line 28). -/
def KIN_VIS : ℝ := 1.3e-5

/-- `#define MAX_ITER 100` (line 29). -/
def MAX_ITER : ℕ := 100

/-- `#define K 5` (line 30). -/
def K : ℕ := 5

/-- `#define MACHEPS 1.0e-6` (line 31). -/
def MACHEPS : ℝ := 1.0e-6

/-- `#define SETTLING 0.3` (line 32). -/
def SETTLING : ℝ := 0.3

/-- `#define NUMINCS 10` (line 35). -/
def NUMINCS : ℕ := 10

/-- `#define SIMPLE 0` (line 37): Liston and Sturm mass flux selected. -/
def SIMPLE : ℕ := 0

/-- `#define SPATIAL_WIND 1` (line 38). -/
def SPATIAL_WIND : ℕ := 1

/-- `#define VAR_THRESHOLD 1` (line 39). -/
def VAR_THRESHOLD : ℕ := 1

/-- `#define FETCH 1` (line 40). -/
def FETCH : ℕ := 1

/-- `#define CALC_PROB 1` (line 41). -/
def CALC_PROB : ℕ := 1

/-- `#define Ka .0245187` (line 25). -/
def Ka : ℝ := 0.0245187

/-- von Karman constant, from the VIC global header (not under src/). -/
def von_K : ℝ := 0.4

/-- Standard gravity, from the VIC global header (not under src/). -/
def G_STD : ℝ := 9.80616

/-- Celsius-to-Kelvin offset, from the VIC global header (not under src/). -/
def KELVIN : ℝ := 273.15

/-- Molecular weight of water, from the VIC global header (not under src/). -/
def MW : ℝ := 18.016e-3

/-- Universal gas constant `R` of the VIC global header (not under src/). -/
def R : ℝ := 8.3143

/-- Density of ice, from the VIC global header (not under src/). -/
def ice_density : ℝ := 917

/-- Modelled from the spec: the saturation vapor pressure routine `svp`
(external mtclim42 code, not under src/), "saturation vapor pressure
(derived)" from air temperature, as the standard empirical curve in Pa. -/
def svp (T : ℝ) : ℝ := 610.78 * exp (17.269 * T / (237.3 + T))

/-- `get_shear` (lines 457-461): value and derivative of the implicit
shear-stress equation, returned as a pair `(f, df)`. -/
def get_shear (x Ur Zr : ℝ) : ℝ × ℝ :=
  (exp (von_K * Ur / x) - 2 * G_STD * Zr / (0.12 * x * x),
   -1 * exp (von_K * Ur / x) / (x * x) + 2 * (2 * G_STD * Zr) / (0.12 * x * x * x))

/-- Loop state of `rtnewt` (lines 403-455): current bracket `[xl, xh]`,
iterate `rts`, last two step sizes and the cached `f`, `df` at `rts`. -/
structure RtState where
  xl : ℝ
  xh : ℝ
  rts : ℝ
  dx : ℝ
  dxold : ℝ
  f : ℝ
  df : ℝ

/-- Tail of one `rtnewt` loop iteration (lines 444-450): the tolerance test
`fabs(dx) < acc`, re-evaluation of `get_shear`, and the bracket update. -/
def rtnewtTail (Ur Zr acc xl xh rts dx dxold : ℝ) : ℝ ⊕ RtState :=
  if |dx| < acc then Sum.inl rts
  else
    let fd := get_shear rts Ur Zr
    if fd.1 < 0 then Sum.inr ⟨rts, xh, rts, dx, dxold, fd.1, fd.2⟩
    else Sum.inr ⟨xl, rts, rts, dx, dxold, fd.1, fd.2⟩

/-- One iteration of the `rtnewt` loop body (lines 431-450).  `Sum.inl v`
models an early `return v;`, `Sum.inr` the next loop state. -/
def rtnewtStep (Ur Zr acc x1 : ℝ) (s : RtState) : ℝ ⊕ RtState :=
  if ((s.rts - s.xh) * s.df - s.f) * ((s.rts - x1) * s.df - s.f) > 0 ∨
      |2 * s.f| > |s.dxold * s.df| then
    let dxold := s.dx
    let dx := 0.5 * (s.xh - s.xl)
    let rts := s.xl + dx
    if s.xl = rts then Sum.inl rts
    else rtnewtTail Ur Zr acc s.xl s.xh rts dx dxold
  else
    let dxold := s.dx
    let dx := s.f / s.df
    let rts := s.rts - dx
    if s.rts = rts then Sum.inl rts
    else rtnewtTail Ur Zr acc s.xl s.xh rts dx dxold

/-- The `for(j=1; j<=MAX_ITER; j++)` loop of `rtnewt` (lines 430-454) with
the remaining iteration count as fuel; when the fuel is exhausted the code
prints a diagnostic and returns the fallback `rts = .025` (lines 452-454). -/
def rtnewtGo (Ur Zr acc x1 : ℝ) : ℕ → RtState → ℝ
  | 0, _ => 0.025
  | n + 1, s =>
    match rtnewtStep Ur Zr acc x1 s with
    | Sum.inl v => v
    | Sum.inr t => rtnewtGo Ur Zr acc x1 n t

/-- The state reached after `n` iterations of the `rtnewt` loop, or `none`
if some iteration early-returns within those `n` iterations. -/
def rtnewtSteps (Ur Zr acc x1 : ℝ) : ℕ → RtState → Option RtState
  | 0, s => some s
  | n + 1, s =>
    match rtnewtStep Ur Zr acc x1 s with
    | Sum.inl _ => none
    | Sum.inr t => rtnewtSteps Ur Zr acc x1 n t

/-- Initial loop state of `rtnewt` (lines 419-429): bracket orientation from
the sign of `f(x1)`, midpoint start, `dxold = dx = fabs(x2-x1)`. -/
def rtnewtInit (x1 x2 Ur Zr : ℝ) : RtState :=
  let fl := (get_shear x1 Ur Zr).1
  let xl := if fl < 0 then x1 else x2
  let xh := if fl < 0 then x2 else x1
  let rts := 0.5 * (x1 + x2)
  let fd := get_shear rts Ur Zr
  ⟨xl, xh, rts, |x2 - x1|, |x2 - x1|, fd.1, fd.2⟩

/-- `rtnewt` (lines 403-455): safeguarded Newton root solver.  `none` models
the `exit(0)` after "Root must be bracketed in rtnewt." (lines 412-415);
all other paths return a value. -/
def rtnewt (x1 x2 acc Ur Zr : ℝ) : Option ℝ :=
  let fl := (get_shear x1 Ur Zr).1
  let fh := (get_shear x2 Ur Zr).1
  if (fl > 0 ∧ fh > 0) ∨ (fl < 0 ∧ fh < 0) then none
  else if fl = 0 then some x1
  else if fh = 0 then some x2
  else some (rtnewtGo Ur Zr acc x1 MAX_ITER (rtnewtInit x1 x2 Ur Zr))

/-- `shear_stress` (lines 615-630): solves for the shear velocity and the
saltation roughness, with the floor correction `Zo_salt >= ZO`.  Returns
`(ushear, Zo_salt)`. -/
def shear_stress (U10 ZO : ℝ) : Option (ℝ × ℝ) :=
  let temp := von_K * U10 / log (10 / ZO)
  (rtnewt 0.0000001 (temp + 5) 0.000001 U10 10).map fun u =>
    let zos := 0.12 * u * u / (2 * G_STD)
    if zos < ZO then (temp, ZO) else (u, zos)

/-- `get_prob` (lines 553-583): probability of blowing-snow occurrence after
Li and Pomeroy (1997). -/
def get_prob (Tair Age SurfaceLiquidWater U10 : ℝ) : ℝ :=
  if CALC_PROB ≠ 0 then
    if SurfaceLiquidWater < 0.001 then
      let mean_u := 11.2 + 0.365 * Tair + 0.00706 * Tair * Tair + 0.9 * log Age
      let sigma_u := 4.3 + 0.145 * Tair + 0.00196 * Tair * Tair
      if U10 > 3 then 1 / (1 + exp (sqrt π * (mean_u - U10) / sigma_u)) else 0
    else
      let mean_u : ℝ := 21
      let sigma_u : ℝ := 7
      if U10 > 7 then 1 / (1 + exp (sqrt π * (mean_u - U10) / sigma_u)) else 0
  else 1

/-- `get_thresh` (lines 585-612): threshold shear velocity, variable
(Li and Pomeroy) when `flag` is nonzero, else the constant `UTHRESH`. -/
def get_thresh (Tair SurfaceLiquidWater U10 Zo_salt prob_occurence : ℝ)
    (flag : ℕ) (ushear : ℝ) : ℝ :=
  let ut10 := if SurfaceLiquidWater < 0.001
    then 9.43 + 0.18 * Tair + 0.0033 * Tair * Tair else 9.9
  if flag ≠ 0 then
    let utshear := von_K * ut10 / log (10 / Zo_salt)
    if ushear < utshear ∧ prob_occurence > 0.001 then
      von_K * (U10 - 0.5) / log (10 / Zo_salt)
    else utshear
  else UTHRESH

/-- `sub_with_height` (lines 488-546): local sublimation rate at height `z`;
`flag = 1` returns the bare rate coefficient, otherwise the product with the
suspended-mass concentration profile. -/
def sub_with_height (z es Wind AirDens ZO EactAir F hsalt phi_r ushear Zrh : ℝ)
    (flag : ℕ) : ℝ :=
  let Rrz := 4.6e-5 * z ^ (-0.258 : ℝ)
  let ALPHAz := 4.08 + 12.6 * z
  let Mz := 4 / 3 * π * ice_density * Rrz * Rrz * Rrz *
    (1 + 3 / ALPHAz + 2 / (ALPHAz * ALPHAz))
  let Rmean := (3 * Mz / (4 * π * ice_density)) ^ ((1 : ℝ) / 3)
  let terminal_v := 1.1e7 * Rmean ^ (1.8 : ℝ)
  let fluctuat_v := 0.005 * Wind ^ (1.36 : ℝ)
  let Vtz := terminal_v + 3 * fluctuat_v * cos (π / 4)
  let Re := 2 * Rmean * Vtz / KIN_VIS
  let Nu := 1.79 + 0.606 * Re ^ (0.5 : ℝ)
  let sigz := (EactAir / es - 1) * (1 - 0.027 * log (z / Zrh))
  let dMdt := 2 * π * Rmean * sigz * Nu / F
  let psi_t := dMdt / Mz
  let temp := 0.5 * ushear * ushear / (Wind * SETTLING)
  let phi_t := phi_r *
    ((temp + 1) * (z / hsalt) ^ (-1 * SETTLING / (von_K * ushear)) - temp)
  if flag = 1 then psi_t else psi_t * phi_t

/-- `polint` inner scan (lines 345-359): index `ns` of the tabulated
abscissa closest to `x` (first minimum, strict improvement). -/
def polintNs (xa : ℕ → ℝ) (n : ℕ) (x : ℝ) : ℕ :=
  (List.range n).foldl
    (fun best i => if |x - xa (i + 1)| < |x - xa best| then i + 1 else best) 1

/-- One `m`-pass of the Neville tableau update in `polint` (lines 362-370),
updating entries `1..n-m` of the `c` and `d` arrays simultaneously (the C
loop reads only not-yet-updated entries). -/
def polintPass (xa : ℕ → ℝ) (x : ℝ) (n m : ℕ) (c d : ℕ → ℝ) :
    (ℕ → ℝ) × (ℕ → ℝ) :=
  (fun i =>
    if 1 ≤ i ∧ i ≤ n - m then
      let ho := xa i - x
      let hp := xa (i + m) - x
      let w := c (i + 1) - d i
      ho * (w / (ho - hp))
    else c i,
   fun i =>
    if 1 ≤ i ∧ i ≤ n - m then
      let ho := xa i - x
      let hp := xa (i + m) - x
      let w := c (i + 1) - d i
      hp * (w / (ho - hp))
    else d i)

/-- Outer `m`-loop of `polint` (lines 361-372), accumulating `y` and the
last correction `dy`, with the `ns` bookkeeping `c[ns+1]` / `d[ns--]`. -/
def polintGo (xa : ℕ → ℝ) (x : ℝ) (n : ℕ) :
    ℕ → ℕ → (ℕ → ℝ) → (ℕ → ℝ) → ℕ → ℝ → ℝ → ℝ × ℝ
  | 0, _, _, _, _, y, dy => (y, dy)
  | fuel + 1, m, c, d, ns, y, _ =>
    let cd := polintPass xa x n m c d
    let pick := 2 * ns < n - m
    let dy2 := if pick then cd.1 (ns + 1) else cd.2 ns
    let ns2 := if pick then ns else ns - 1
    polintGo xa x n fuel (m + 1) cd.1 cd.2 ns2 (y + dy2) dy2

/-- `polint` (lines 339-375): Neville polynomial interpolation of the table
`(xa i, ya i)`, `i = 1..n`, evaluated at `x`; returns `(y, dy)`.  The
`nrerror` on `den == 0` cannot fire in this module (the abscissas are
distinct powers of 1/4), and division is total in the embedding. -/
def polint (xa ya : ℕ → ℝ) (n : ℕ) (x : ℝ) : ℝ × ℝ :=
  let ns := polintNs xa n x
  polintGo xa x n (n - 1) 1 ya ya (ns - 1) (ya ns) 0

/-- `trapzd` (lines 377-401): one refinement level of the composite
trapezoidal rule.  The C `static double s` shared across calls is threaded
explicitly as `sPrev` (level `n = 1` sets it without reading). -/
def trapzd (a b : ℝ) (n : ℕ)
    (es Wind AirDens ZO EactAir F hsalt phi_r ushear Zrh : ℝ) (sPrev : ℝ) : ℝ :=
  if n = 1 then
    0.5 * (b - a) *
      (sub_with_height a es Wind AirDens ZO EactAir F hsalt phi_r ushear Zrh 0 +
       sub_with_height b es Wind AirDens ZO EactAir F hsalt phi_r ushear Zrh 0)
  else
    let it : ℕ := 2 ^ (n - 2)
    let tnm : ℝ := it
    let del := (b - a) / tnm
    let sum := ∑ jj ∈ Finset.range it,
      sub_with_height (a + 0.5 * del + jj * del)
        es Wind AirDens ZO EactAir F hsalt phi_r ushear Zrh 0
    0.5 * (sPrev + (b - a) * sum / tnm)

/-- The `for(j=1; j<=MAX_ITER; j++)` loop of `qromb` (lines 327-334): `hist`
holds `s[1..j-1]`, `sPrev` the threaded static of `trapzd`; from `j >= K`
the last `K` trapezoid values are extrapolated to step 0 by `polint` and the
loop returns when `fabs(dss) <= MACHEPS*fabs(ss)`.  Running out of fuel is
the `nrerror("Too many steps in routine qromb")` abort, modelled as `none`. -/
def qrombGo (a b es Wind AirDens ZO EactAir F hsalt phi_r ushear Zrh : ℝ) :
    ℕ → ℕ → ℝ → List ℝ → Option ℝ
  | 0, _, _, _ => none
  | fuel + 1, j, sPrev, hist =>
    let sj := trapzd a b j es Wind AirDens ZO EactAir F hsalt phi_r ushear Zrh sPrev
    let hist2 := hist ++ [sj]
    if K ≤ j then
      let yd := polint (fun i => (0.25 : ℝ) ^ (j + i - 6))
        (fun i => hist2.getD (j + i - 6) 0) K 0
      if |yd.2| ≤ MACHEPS * |yd.1| then some yd.1
      else qrombGo a b es Wind AirDens ZO EactAir F hsalt phi_r ushear Zrh fuel (j + 1) sj hist2
    else qrombGo a b es Wind AirDens ZO EactAir F hsalt phi_r ushear Zrh fuel (j + 1) sj hist2

/-- `qromb` (lines 317-337): Romberg integration of `sub_with_height`
(flag 0) from `a` to `b`. -/
def qromb (a b es Wind AirDens ZO EactAir F hsalt phi_r ushear Zrh : ℝ) : Option ℝ :=
  qrombGo a b es Wind AirDens ZO EactAir F hsalt phi_r ushear Zrh MAX_ITER 1 0 []

/-- `CalcSubFlux` (lines 632-682): sublimation flux for one representative
wind speed; with `SIMPLE = 0` the Liston-Sturm saltation closed form plus
the Romberg suspension-layer integral. -/
def CalcSubFlux (EactAir es Zrh AirDens utshear ushear fe Tsnow Tair U10 Zo_salt F : ℝ) :
    Option ℝ :=
  let particle := utshear * 2.8
  if SIMPLE ≠ 0 then
    let b : ℝ := 0.25
    let undersat_2 := (EactAir / es - 1) * (1 - 0.027 * log Zrh + 0.027 * log 2)
    some (b * undersat_2 * U10 ^ (5 : ℝ) / F)
  else
    let Qsalt0 := CSALT * AirDens / G_STD * (utshear / ushear) *
      (ushear * ushear - utshear * utshear)
    let Qsalt := if FETCH ≠ 0 then
      Qsalt0 * (1 + 500 / (3 * fe) * (exp (-3 * fe / 500) - 1)) else Qsalt0
    let hsalt := 1.6 * ushear * ushear / (2 * G_STD)
    let phi_s := Qsalt / (hsalt * particle)
    let psi_s := sub_with_height (hsalt / 2) es U10 AirDens Zo_salt EactAir F hsalt
      phi_s ushear Zrh 1
    let sflux := phi_s * psi_s * hsalt
    let T := 0.5 * (ushear * ushear) / (U10 * SETTLING)
    let ztop := hsalt * (T / (T + 1)) ^ (von_K * ushear / (-1 * SETTLING))
    (qromb hsalt ztop es U10 AirDens Zo_salt EactAir F hsalt phi_s ushear Zrh).map
      fun q => sflux + q

/-- Integration limits, conditional-expectation wind and the diagnostic
fallback for probability interval `p` (lines 193-233), before clamping. -/
def repWindRaw (Uo sigma_w : ℝ) (p : ℕ) : ℝ :=
  let area : ℝ := 1 / (NUMINCS : ℝ)
  let lower0 : ℝ :=
    if p = 0 then 0
    else if p < NUMINCS / 2 then Uo + sigma_w * log (2 * (p : ℝ) * area)
    else Uo - sigma_w * log (2 - 2 * ((p : ℝ) * area))
  let upper0 : ℝ :=
    if p = NUMINCS - 1 then Uo * 2
    else if p < NUMINCS / 2 then Uo + sigma_w * log (2 * ((p : ℝ) + 1) * area)
    else Uo - sigma_w * log (2 - 2 * (((p : ℝ) + 1) * area))
  let lower1 := if lower0 < 0 then 0 else lower0
  let upper1 := if upper0 < 0 then 0 else upper0
  let lower2 := if lower1 > upper1 then upper1 else lower1
  if lower2 ≥ Uo then
    -0.5 * ((upper1 + sigma_w) * exp (-1 / sigma_w * (upper1 - Uo)) -
      (lower2 + sigma_w) * exp (-1 / sigma_w * (lower2 - Uo))) / area
  else if upper1 ≤ Uo then
    0.5 * ((upper1 - sigma_w) * exp (1 / sigma_w * (upper1 - Uo)) -
      (lower2 - sigma_w) * exp (1 / sigma_w * (lower2 - Uo))) / area
  else 0.4

/-- Representative wind speed actually passed to `CalcSubFlux` for interval
`p`: `repWindRaw` clamped below at 0.4 and above at 25 (lines 235-238). -/
def repWind (Uo sigma_w : ℝ) (p : ℕ) : ℝ :=
  let U10a := repWindRaw Uo sigma_w p
  let U10b := if U10a < 0.4 then 0.4 else U10a
  if U10b > 25 then 25 else U10b

/-- Vegetation-burial wind adjustment (lines 243-246): reduce the wind when
the snowpack does not bury the effective vegetation height `hv`. -/
def Uveg_adjust (U10 hv Nd snowdepth : ℝ) : ℝ :=
  if snowdepth < hv then U10 / sqrt (1 + 680 * Nd * (hv - snowdepth)) else U10

/-- Wind value fed to `get_prob` in the branch without spatial wind
variability (lines 282-285).  The C code uses the local `U10` there, which
is NEVER assigned on that path, so the argument is the indeterminate
`u10Uninit`, not the mean wind `Uo`. -/
def detProbArg (u10Uninit hv Nd snowdepth : ℝ) : ℝ :=
  Uveg_adjust u10Uninit hv Nd snowdepth

/-- One iteration of the wind-probability loop (lines 191-273): contribution
`(1/NUMINCS) * SubFlux * prob_occurence` of interval `p` to `Total`. -/
def intervalContribution
    (Tair Age SurfaceLiquidWater EactAir es Zrh AirDens fe Tsnow ZO2 F Uo
      sigma_w hv Nd snowdepth : ℝ) (p : ℕ) : Option ℝ :=
  let U10 := repWind Uo sigma_w p
  let Uveg := Uveg_adjust U10 hv Nd snowdepth
  let prob := get_prob Tair Age SurfaceLiquidWater Uveg
  (shear_stress U10 ZO2).bind fun us =>
    let utshear := get_thresh Tair SurfaceLiquidWater U10 ZO2 prob VAR_THRESHOLD us.1
    if us.1 > utshear ∧ EactAir < es then
      (CalcSubFlux EactAir es Zrh AirDens utshear us.1 fe Tsnow Tair U10 us.2 F).map
        fun sf => 1 / (NUMINCS : ℝ) * sf * prob
    else some (1 / (NUMINCS : ℝ) * 0 * prob)

/-- Accumulated `Total` of the spatial-wind loop over the `NUMINCS`
probability intervals (lines 190-275). -/
def loopTotal
    (Tair Age SurfaceLiquidWater EactAir es Zrh AirDens fe Tsnow ZO2 F Uo
      sigma_w hv Nd snowdepth : ℝ) : Option ℝ :=
  (List.range NUMINCS).foldl
    (fun acc p => acc.bind fun t =>
      (intervalContribution Tair Age SurfaceLiquidWater EactAir es Zrh AirDens fe
        Tsnow ZO2 F Uo sigma_w hv Nd snowdepth p).map fun c => t + c)
    (some 0)

/-- `Total` of the deterministic branch (lines 276-307): a single
flux-assembler call at the mean wind `Uo`, `Total = SubFlux * prob`, with
the occurrence probability computed from the uninitialized `U10`. -/
def detTotal
    (Tair Age SurfaceLiquidWater EactAir es Zrh AirDens fe Tsnow ZO2 F Uo
      hv Nd snowdepth u10Uninit : ℝ) : Option ℝ :=
  let Uveg := detProbArg u10Uninit hv Nd snowdepth
  let prob := get_prob Tair Age SurfaceLiquidWater Uveg
  (shear_stress Uo ZO2).bind fun us =>
    let utshear := get_thresh Tair SurfaceLiquidWater Uo ZO2 prob VAR_THRESHOLD us.1
    if us.1 > utshear ∧ EactAir < es then
      (CalcSubFlux EactAir es Zrh AirDens utshear us.1 fe Tsnow Tair Uo us.2 F).map
        fun sf => sf * prob
    else some (0 * prob)

/-- `F`, the denominator of `dm/dt` (lines 134-145), Essery et al. eq. 6. -/
def driverF (Tair Ls : ℝ) : ℝ :=
  let es := svp Tair
  let Tk := Tair + KELVIN
  let Ros := 0.622 * es / (287 * Tk)
  let Diffusivity := 2.06e-5 * (Tk / 273) ^ (1.75 : ℝ)
  Ls / (Ka * Tk) * (Ls * MW / (R * Tk) - 1) + 1 / (Diffusivity * Ros)

/-- Conversion of the 2 m wind to an equivalent 10 m wind by the log law
(line 150). -/
def wind10 (Wind ZO2 : ℝ) : ℝ := Wind * log (10 / ZO2) / log ((2 + ZO2) / ZO2)

/-- Fetch override for the bare-soil case `iveg == Nveg` (lines 154-157). -/
def driverFe (iveg Nveg : ℤ) (fe : ℝ) : ℝ := if iveg = Nveg then 1500 else fe

/-- Slope-variance override for the bare-soil case (lines 154-157). -/
def driverSigmaSlope (iveg Nveg : ℤ) (sigma_slope : ℝ) : ℝ :=
  if iveg = Nveg then 0.0002 else sigma_slope

/-- `sigma_w` (lines 159-171): wind standard deviation from the slope
variance and lag-one autocorrelation, with the runaway guard that forces
`0.22` when `|sigma_w| > 10`. -/
def driverSigmaW (Wind ZO2 lag_one sigma_slope : ℝ) (iveg Nveg : ℤ) : ℝ :=
  let sw := wind10 Wind ZO2 *
    ((2.4 - 0.4 / 0.9 * lag_one) * driverSigmaSlope iveg Nveg sigma_slope)
  if sw > 10 ∨ sw < -10 then 0.22 else sw

/-- `Total` before the final floor clamp (lines 183-308): zero when
`snowdepth <= 0`, otherwise the spatial-wind loop or the deterministic
single call depending on `SPATIAL_WIND && sigma_w != 0`. -/
def blowingTotal (Dt Tair : ℝ) (LastSnow : ℤ)
    (SurfaceLiquidWater Wind Ls AirDens Press EactAir ZO2 Zrh snowdepth
      lag_one sigma_slope Tsnow : ℝ) (iveg Nveg : ℤ)
    (fe displacement roughness u10Uninit : ℝ) : Option ℝ :=
  let Age := (LastSnow : ℝ) * Dt
  let es := svp Tair
  let F := driverF Tair Ls
  let Uo := wind10 Wind ZO2
  let fe2 := driverFe iveg Nveg fe
  let sigma_w := driverSigmaW Wind ZO2 lag_one sigma_slope iveg Nveg
  let hv := 3 / 2 * displacement
  let Nd := 4 / 3 * (roughness / displacement)
  if snowdepth > 0 then
    if SPATIAL_WIND ≠ 0 ∧ sigma_w ≠ 0 then
      loopTotal Tair Age SurfaceLiquidWater EactAir es Zrh AirDens fe2 Tsnow ZO2 F
        Uo sigma_w hv Nd snowdepth
    else
      detTotal Tair Age SurfaceLiquidWater EactAir es Zrh AirDens fe2 Tsnow ZO2 F
        Uo hv Nd snowdepth u10Uninit
  else some 0

/-- `CalcBlowingSnow` (lines 83-315): the driver.  The returned `Total` is
floor-clamped at `-0.00005` (lines 310-313).  `Press` is accepted and unused,
as in the C code; `ZO2` is the only roughness-array entry read (`ZO[2]`);
`u10Uninit` is the indeterminate value of the never-assigned local `U10`
read in the deterministic branch. -/
def CalcBlowingSnow (Dt Tair : ℝ) (LastSnow : ℤ)
    (SurfaceLiquidWater Wind Ls AirDens Press EactAir ZO2 Zrh snowdepth
      lag_one sigma_slope Tsnow : ℝ) (iveg Nveg : ℤ)
    (fe displacement roughness u10Uninit : ℝ) : Option ℝ :=
  (blowingTotal Dt Tair LastSnow SurfaceLiquidWater Wind Ls AirDens Press EactAir
      ZO2 Zrh snowdepth lag_one sigma_slope Tsnow iveg Nveg fe displacement
      roughness u10Uninit).map
    fun t => if t < -0.00005 then -0.00005 else t

/-- Invariant for the `rtnewt` trajectory started on the concrete instance
`Ur = 0`, `Zr = 0.12 / G_STD` (so the equation is `1 - 2/x^2`, with the
irrational root `sqrt 2`), bracket `[1/2, 2]`: all bracket points and the
iterate are rational, inside `[1/2, 2]`, the bracket straddles the root, and
the cached `f`, `df` agree with `get_shear` at the iterate. -/
def Inv9 (s : RtState) : Prop :=
  (∃ a : ℚ, s.xl = (a : ℝ)) ∧ (∃ b : ℚ, s.xh = (b : ℝ)) ∧ (∃ r : ℚ, s.rts = (r : ℝ)) ∧
  1 / 2 ≤ s.xl ∧ s.xl ≤ 2 ∧ 1 / 2 ≤ s.xh ∧ s.xh ≤ 2 ∧
  s.xl * s.xl < 2 ∧ 2 < s.xh * s.xh ∧
  1 / 2 ≤ s.rts ∧ s.rts ≤ 2 ∧
  s.f = 1 - 2 / (s.rts * s.rts) ∧
  s.df = -1 / (s.rts * s.rts) + 4 / (s.rts * s.rts * s.rts)

/-! ## Helper lemmas -/

/-- The dry-snow occurrence probability above the 3 m/s cutoff, in closed
form. -/
theorem get_prob_dry (Tair Age SurfaceLiquidWater U10 : ℝ)
    (hw : SurfaceLiquidWater < 0.001) (hu : U10 > 3) :
    get_prob Tair Age SurfaceLiquidWater U10 =
      1 / (1 + exp (sqrt π *
        (11.2 + 0.365 * Tair + 0.00706 * Tair * Tair + 0.9 * log Age - U10) /
        (4.3 + 0.145 * Tair + 0.00196 * Tair * Tair))) := by
  simp only [get_prob, CALC_PROB]
  rw [if_pos (by norm_num : (1 : ℕ) ≠ 0), if_pos hw, if_pos hu]

/-- Folding the per-interval accumulation over a `none` accumulator stays
`none`. -/
theorem aux_foldl_none (g : ℕ → Option ℝ) : ∀ l : List ℕ,
    l.foldl (fun acc p => acc.bind fun x => (g p).map fun c => x + c) none = none := by
  intro l
  induction l with
  | nil => rfl
  | cons a l ih => simpa using ih

/-- If every interval contributes `some 0` or fails, the accumulated fold is
the initial value or a failure. -/
theorem aux_foldl_zero (g : ℕ → Option ℝ) : ∀ (l : List ℕ) (t : ℝ),
    (∀ p ∈ l, g p = some 0 ∨ g p = none) →
    (l.foldl (fun acc p => acc.bind fun x => (g p).map fun c => x + c) (some t) = some t ∨
     l.foldl (fun acc p => acc.bind fun x => (g p).map fun c => x + c) (some t) = none) := by
  intro l
  induction l with
  | nil => intro t _; left; rfl
  | cons a l ih =>
    intro t hg
    rcases hg a (List.mem_cons_self a l) with h0 | hn
    · rw [List.foldl_cons]
      have hstep : ((some t).bind fun x => (g a).map fun c => x + c) = some t := by
        rw [h0]; simp
      rw [hstep]
      exact ih t fun p hp => hg p (List.mem_cons_of_mem a hp)
    · rw [List.foldl_cons]
      have hstep : ((some t).bind fun x => (g a).map fun c => x + c) = none := by
        rw [hn]; rfl
      rw [hstep]
      exact Or.inr (aux_foldl_none g l)

/-- When the ambient vapor pressure is not below saturation, the per-interval
flux contribution is zero (or the call aborts inside the root solver): the
guard `ushear > utshear && EactAir < es` at line 264 fails. -/
theorem interval_zero_when_saturated
    (Tair Age SurfaceLiquidWater EactAir es Zrh AirDens fe Tsnow ZO2 F Uo
      sigma_w hv Nd snowdepth : ℝ) (p : ℕ) (hse : es ≤ EactAir) :
    intervalContribution Tair Age SurfaceLiquidWater EactAir es Zrh AirDens fe
      Tsnow ZO2 F Uo sigma_w hv Nd snowdepth p = some 0 ∨
    intervalContribution Tair Age SurfaceLiquidWater EactAir es Zrh AirDens fe
      Tsnow ZO2 F Uo sigma_w hv Nd snowdepth p = none := by
  simp only [intervalContribution]
  cases hs : shear_stress (repWind Uo sigma_w p) ZO2 with
  | none => right; rfl
  | some us =>
    left
    rw [Option.some_bind]
    split_ifs with hcond
    · exact absurd hcond.2 (not_lt.mpr hse)
    · norm_num

/-- The shear equation of the concrete instance `Ur = 0`, `Zr = 0.12/G_STD`
is `1 - 2/x^2`. -/
theorem aux9_f (x : ℝ) : (get_shear x 0 (0.12 / G_STD)).1 = 1 - 2 / (x * x) := by
  simp only [get_shear, von_K, G_STD]
  rw [mul_zero, zero_div, Real.exp_zero]
  rcases eq_or_ne x 0 with hx | hx
  · subst hx; norm_num
  · field_simp
    ring

/-- The coded derivative of the same concrete instance is
`-1/x^2 + 4/x^3`. -/
theorem aux9_df (x : ℝ) :
    (get_shear x 0 (0.12 / G_STD)).2 = -1 / (x * x) + 4 / (x * x * x) := by
  simp only [get_shear, von_K, G_STD]
  rw [mul_zero, zero_div, Real.exp_zero]
  rcases eq_or_ne x 0 with hx | hx
  · subst hx; norm_num
  · field_simp
    ring

/-- No rational squares to 2. -/
theorem rat_sq_ne_two (q : ℚ) : (q : ℝ) * (q : ℝ) ≠ 2 := by
  intro h
  have h1 : ((q : ℝ)) ^ 2 = 2 := by rw [sq]; exact h
  have h2 : |(q : ℝ)| = Real.sqrt 2 := by rw [← Real.sqrt_sq_eq_abs, h1]
  exact irrational_sqrt_two ⟨|q|, by rw [Rat.cast_abs, h2]⟩

/-- Assembled invariant for a post-step state whose cached `f`, `df` come
from `get_shear` at the new iterate. -/
theorem inv9_mk (xl xh rts2 dx dxold : ℝ)
    (hxl : ∃ a : ℚ, xl = (a : ℝ)) (hxh : ∃ b : ℚ, xh = (b : ℝ))
    (hrts : ∃ r : ℚ, rts2 = (r : ℝ))
    (h1 : 1 / 2 ≤ xl) (h2 : xl ≤ 2) (h3 : 1 / 2 ≤ xh) (h4 : xh ≤ 2)
    (h5 : xl * xl < 2) (h6 : 2 < xh * xh) (h7 : 1 / 2 ≤ rts2) (h8 : rts2 ≤ 2) :
    Inv9 ⟨xl, xh, rts2, dx, dxold, 1 - 2 / (rts2 * rts2),
      -1 / (rts2 * rts2) + 4 / (rts2 * rts2 * rts2)⟩ :=
  ⟨hxl, hxh, hrts, h1, h2, h3, h4, h5, h6, h7, h8, rfl, rfl⟩

/-- The tail of a loop iteration (tolerance test and bracket update)
preserves the trajectory invariant on the concrete `c9` instance when the
new iterate is rational and inside `[1/2, 2]`. -/
theorem inv9_tail (xl xh rts2 dx dxold : ℝ)
    (hxl : ∃ a : ℚ, xl = (a : ℝ)) (hxh : ∃ b : ℚ, xh = (b : ℝ))
    (hrts : ∃ r : ℚ, rts2 = (r : ℝ))
    (h1 : 1 / 2 ≤ xl) (h2 : xl ≤ 2) (h3 : 1 / 2 ≤ xh) (h4 : xh ≤ 2)
    (h5 : xl * xl < 2) (h6 : 2 < xh * xh) (h7 : 1 / 2 ≤ rts2) (h8 : rts2 ≤ 2) :
    ∃ t : RtState, rtnewtTail 0 (0.12 / G_STD) (-1) xl xh rts2 dx dxold = Sum.inr t ∧
      Inv9 t := by
  have hrpos : 0 < rts2 := lt_of_lt_of_le (by norm_num) h7
  simp only [rtnewtTail]
  rw [if_neg (not_lt.mpr (le_trans (by norm_num) (abs_nonneg dx)))]
  rw [aux9_f, aux9_df]
  by_cases hsgn : 1 - 2 / (rts2 * rts2) < 0
  · rw [if_pos hsgn]
    refine ⟨_, rfl, inv9_mk rts2 xh rts2 dx dxold hrts hxh hrts h7 h8 h3 h4 ?_ h6 h7 h8⟩
    have h9 : (1 : ℝ) < 2 / (rts2 * rts2) := by linarith
    rw [lt_div_iff (by positivity)] at h9
    linarith
  · rw [if_neg hsgn]
    refine ⟨_, rfl, inv9_mk xl rts2 rts2 dx dxold hxl hrts hrts h1 h2 h7 h8 h5 ?_ h7 h8⟩
    obtain ⟨r, hrq⟩ := hrts
    have hne : 1 - 2 / (rts2 * rts2) ≠ 0 := by
      intro h0
      have h3' : rts2 * rts2 ≠ 0 := by positivity
      have h01 : 2 / (rts2 * rts2) = 1 := by linarith
      have hrr : (2 : ℝ) = rts2 * rts2 := (div_eq_one_iff_eq h3').mp h01
      rw [hrq] at hrr
      exact rat_sq_ne_two r hrr.symm
    have hgt : 0 < 1 - 2 / (rts2 * rts2) := lt_of_le_of_ne (not_lt.mp hsgn) (Ne.symm hne)
    have h9 : 2 / (rts2 * rts2) < 1 := by linarith
    rw [div_lt_iff (by positivity)] at h9
    linarith

/-- One iteration of the `rtnewt` loop on the concrete `c9` instance never
early-returns and preserves the trajectory invariant. -/
theorem inv9_step (s : RtState) (h : Inv9 s) :
    ∃ t : RtState, rtnewtStep 0 (0.12 / G_STD) (-1) (1 / 2) s = Sum.inr t ∧ Inv9 t := by
  obtain ⟨⟨a, ha⟩, ⟨b, hb⟩, ⟨r, hr⟩, hxl1, hxl2, hxh1, hxh2, hxlsq, hxhsq, hr1, hr2, hf, hdf⟩ := h
  have hxlpos : (0 : ℝ) < s.xl := by linarith
  have hxhpos : (0 : ℝ) < s.xh := by linarith
  have hrpos : (0 : ℝ) < s.rts := by linarith
  have hxlxh : s.xl < s.xh := by nlinarith
  have hdfpos : 0 < s.df := by
    have he : s.df = (4 - s.rts) / (s.rts * s.rts * s.rts) := by
      rw [hdf]; field_simp; ring
    rw [he]
    exact div_pos (by linarith) (by positivity)
  have hfne : s.f ≠ 0 := by
    rw [hf]
    intro h0
    have h3' : s.rts * s.rts ≠ 0 := by positivity
    have h01 : 2 / (s.rts * s.rts) = 1 := by linarith
    have hrr : (2 : ℝ) = s.rts * s.rts := (div_eq_one_iff_eq h3').mp h01
    rw [hr] at hrr
    exact rat_sq_ne_two r hrr.symm
  simp only [rtnewtStep]
  by_cases hcond : ((s.rts - s.xh) * s.df - s.f) * ((s.rts - 1 / 2) * s.df - s.f) > 0 ∨
      |2 * s.f| > |s.dxold * s.df|
  · rw [if_pos hcond]
    have hne : ¬ (s.xl = s.xl + 0.5 * (s.xh - s.xl)) := by
      intro he
      have : (0.5 : ℝ) * (s.xh - s.xl) = 0 := by linarith
      linarith
    rw [if_neg hne]
    have hmid1 : s.xl < s.xl + 0.5 * (s.xh - s.xl) := by linarith
    have hmid2 : s.xl + 0.5 * (s.xh - s.xl) < s.xh := by linarith
    exact inv9_tail s.xl s.xh (s.xl + 0.5 * (s.xh - s.xl)) _ _ ⟨a, ha⟩ ⟨b, hb⟩
      ⟨a + (b - a) / 2, by
        rw [show (0.5 : ℝ) = 1 / 2 by norm_num, ha, hb]; push_cast; ring⟩
      hxl1 hxl2 hxh1 hxh2 hxlsq hxhsq (le_trans hxl1 hmid1.le) (le_trans hmid2.le hxh2)
  · rw [if_neg hcond]
    push_neg at hcond
    obtain ⟨hnc1, -⟩ := hcond
    have hstall : ¬ (s.rts = s.rts - s.f / s.df) := by
      intro he
      have hdx : s.f / s.df = 0 := by linarith
      rcases div_eq_zero_iff.mp hdx with h0 | h0
      · exact hfne h0
      · exact hdfpos.ne' h0
    rw [if_neg hstall]
    have hA : (s.rts - s.xh) * s.df - s.f = s.df * (s.rts - s.f / s.df - s.xh) := by
      field_simp
      ring
    have hB : (s.rts - 1 / 2) * s.df - s.f = s.df * (s.rts - s.f / s.df - 1 / 2) := by
      field_simp
      ring
    rw [hA, hB] at hnc1
    have hloc : (s.rts - s.f / s.df - s.xh) * (s.rts - s.f / s.df - 1 / 2) ≤ 0 := by
      by_contra hcon
      push_neg at hcon
      nlinarith [mul_pos (mul_pos hdfpos hdfpos) hcon]
    have hub : s.rts - s.f / s.df ≤ s.xh := by
      by_contra hcon
      push_neg at hcon
      nlinarith
    have hlb : 1 / 2 ≤ s.rts - s.f / s.df := by
      by_contra hcon
      push_neg at hcon
      nlinarith
    exact inv9_tail s.xl s.xh (s.rts - s.f / s.df) _ _ ⟨a, ha⟩ ⟨b, hb⟩
      ⟨r - (1 - 2 / (r * r)) / (-1 / (r * r) + 4 / (r * r * r)), by
        rw [hf, hdf, hr]; push_cast; ring⟩
      hxl1 hxl2 hxh1 hxh2 hxlsq hxhsq hlb (le_trans hub hxh2)

/-- The invariant holds at the initial `rtnewt` state of the concrete `c9`
instance: bracket `[1/2, 2]`, midpoint start `5/4`. -/
theorem inv9_init : Inv9 (rtnewtInit (1 / 2) 2 0 (0.12 / G_STD)) := by
  have hfl : (get_shear (1 / 2 : ℝ) 0 (0.12 / G_STD)).1 = -7 := by
    rw [aux9_f]; norm_num
  simp only [rtnewtInit]
  rw [hfl]
  rw [if_pos (by norm_num : (-7 : ℝ) < 0), if_pos (by norm_num : (-7 : ℝ) < 0)]
  refine ⟨⟨(1 : ℚ) / 2, by norm_num⟩, ⟨2, by norm_num⟩, ⟨(5 : ℚ) / 4, by norm_num⟩,
    by norm_num, by norm_num, by norm_num, by norm_num, by norm_num, by norm_num,
    by norm_num, by norm_num, ?_, ?_⟩
  · exact aux9_f _
  · exact aux9_df _

/-- Unfolding lemma: an early return kills the remaining iteration count. -/
theorem rtnewtSteps_succ_inl {Ur Zr acc x1 : ℝ} {s : RtState} {n : ℕ} {v : ℝ}
    (h : rtnewtStep Ur Zr acc x1 s = Sum.inl v) :
    rtnewtSteps Ur Zr acc x1 (n + 1) s = none := by
  simp only [rtnewtSteps, h]

/-- Unfolding lemma: a non-returning iteration advances the state. -/
theorem rtnewtSteps_succ_inr {Ur Zr acc x1 : ℝ} {s t : RtState} {n : ℕ}
    (h : rtnewtStep Ur Zr acc x1 s = Sum.inr t) :
    rtnewtSteps Ur Zr acc x1 (n + 1) s = rtnewtSteps Ur Zr acc x1 n t := by
  simp only [rtnewtSteps, h]

/-- Unfolding lemma for the value-producing loop. -/
theorem rtnewtGo_succ_inr {Ur Zr acc x1 : ℝ} {s t : RtState} {n : ℕ}
    (h : rtnewtStep Ur Zr acc x1 s = Sum.inr t) :
    rtnewtGo Ur Zr acc x1 (n + 1) s = rtnewtGo Ur Zr acc x1 n t := by
  simp only [rtnewtGo, h]

/-- On the concrete `c9` instance the loop never early-returns, for any
number of iterations. -/
theorem inv9_steps : ∀ (n : ℕ) (s : RtState), Inv9 s →
    (rtnewtSteps 0 (0.12 / G_STD) (-1) (1 / 2) n s).isSome := by
  intro n
  induction n with
  | zero => intro s _; rfl
  | succ k ih =>
    intro s hs
    obtain ⟨t, hstep, hinv⟩ := inv9_step s hs
    simp only [rtnewtSteps]
    rw [hstep]
    exact ih t hinv

/-! ## Claims -/

/-- C1: for every combination of the other inputs, if `snowdepth <= 0` then
`CalcBlowingSnow` returns exactly 0 (lines 183-314: the wind loop is skipped,
`Total` stays 0, and the floor clamp leaves 0 unchanged). -/
theorem c1_no_snow_zero_flux (Dt Tair : ℝ) (LastSnow : ℤ)
    (SurfaceLiquidWater Wind Ls AirDens Press EactAir ZO2 Zrh snowdepth
      lag_one sigma_slope Tsnow : ℝ) (iveg Nveg : ℤ)
    (fe displacement roughness u10Uninit : ℝ)
    (h : snowdepth ≤ 0) :
    CalcBlowingSnow Dt Tair LastSnow SurfaceLiquidWater Wind Ls AirDens Press
      EactAir ZO2 Zrh snowdepth lag_one sigma_slope Tsnow iveg Nveg fe
      displacement roughness u10Uninit = some 0 := by
  simp only [CalcBlowingSnow, blowingTotal]
  rw [if_neg (not_lt.mpr h)]
  norm_num

/-- Witness for C1 at the concrete input `snowdepth = 0`. -/
theorem c1_witness :
    (0 : ℝ) ≤ 0 ∧
    CalcBlowingSnow 1 0 0 0 0 0 0 0 0 1 1 0 0 0 0 0 1 0 1 1 0 = some 0 :=
  ⟨le_refl 0, c1_no_snow_zero_flux 1 0 0 0 0 0 0 0 0 1 1 0 0 0 0 0 1 0 1 1 0 (le_refl 0)⟩

/-- C2: every value returned by `CalcBlowingSnow` is at least `-5e-5`: the
accumulated `Total` is floor-clamped immediately before return
(lines 310-313). -/
theorem c2_result_floored (Dt Tair : ℝ) (LastSnow : ℤ)
    (SurfaceLiquidWater Wind Ls AirDens Press EactAir ZO2 Zrh snowdepth
      lag_one sigma_slope Tsnow : ℝ) (iveg Nveg : ℤ)
    (fe displacement roughness u10Uninit : ℝ) (v : ℝ)
    (h : CalcBlowingSnow Dt Tair LastSnow SurfaceLiquidWater Wind Ls AirDens Press
      EactAir ZO2 Zrh snowdepth lag_one sigma_slope Tsnow iveg Nveg fe
      displacement roughness u10Uninit = some v) :
    -0.00005 ≤ v := by
  unfold CalcBlowingSnow at h
  cases hb : blowingTotal Dt Tair LastSnow SurfaceLiquidWater Wind Ls AirDens Press
      EactAir ZO2 Zrh snowdepth lag_one sigma_slope Tsnow iveg Nveg fe
      displacement roughness u10Uninit with
  | none => rw [hb] at h; simp at h
  | some t =>
    rw [hb] at h
    simp only [Option.map_some'] at h
    have hv := Option.some.inj h
    by_cases hc : t < -0.00005
    · rw [if_pos hc] at hv
      exact hv.le
    · rw [if_neg hc] at hv
      exact hv ▸ not_lt.mp hc

/-- Witness for C2: the hypothesis holds at the concrete input with
`snowdepth = 0`, where the returned value is 0. -/
theorem c2_witness : -0.00005 ≤ (0 : ℝ) :=
  c2_result_floored 1 0 0 0 0 0 0 0 0 1 1 0 0 0 0 0 1 0 1 1 0 0
    (by simp only [CalcBlowingSnow, blowingTotal]
        rw [if_neg (by norm_num : ¬ ((0 : ℝ) > 0))]
        norm_num)

/-- C5 counterexample: the claim fails in the deterministic branch.  With
`Wind = 30`, `ZO2 = 0.0005`, `sigma_slope = 0`, `iveg = 0 ≠ Nveg = 1` the
driver has `sigma_w = 0`, so it takes the single-call branch (lines 276-307),
and the wind it passes to `CalcSubFlux` there is the unclamped `Uo = wind10`,
which lies outside `[0.4, 25]`. -/
theorem c5_counterexample :
    driverSigmaW 30 0.0005 0.8 0 0 1 = 0 ∧
    ¬ (0.4 ≤ wind10 30 0.0005 ∧ wind10 30 0.0005 ≤ 25) := by
  constructor
  · norm_num [driverSigmaW, driverSigmaSlope]
  · rintro ⟨-, hle⟩
    have h1 : (0 : ℝ) < log 4001 := log_pos (by norm_num)
    have h2 : log 4001 < log 20000 := log_lt_log (by norm_num) (by norm_num)
    have hw : wind10 30 0.0005 = 30 * log 20000 / log 4001 := by
      unfold wind10; norm_num
    rw [hw, div_le_iff h1] at hle
    nlinarith

/-- C5 amended: in the spatial-wind interval loop every representative wind
speed passed to `CalcSubFlux` lies within `[0.4, 25]` (clamps at
lines 235-238); in the deterministic single-call branch the wind passed is
the unclamped converted 10 m wind, which can leave that range. -/
theorem c5_amended_loop_wind_in_range (Uo sigma_w : ℝ) (p : ℕ) :
    0.4 ≤ repWind Uo sigma_w p ∧ repWind Uo sigma_w p ≤ 25 := by
  simp only [repWind]
  split_ifs <;> constructor <;> norm_num <;> linarith

/-- C6: in the no-spatial-variability branch the wind used for the
vegetation-burial adjustment and the occurrence probability is the local
`U10`, which is never assigned on that path (lines 282-287) — undefined
behaviour in C, modelled by the explicit `u10Uninit` parameter.  At the same
physical state, two different indeterminate values give two different
adjusted winds: the computation does not use the mean wind `Uo` as the spec
intends. -/
theorem c6_det_branch_uses_uninitialized_wind :
    detProbArg 7 0.15 (4 / 3 * (0.01 / 0.1)) 0.3 = 7 ∧
    detProbArg 3 0.15 (4 / 3 * (0.01 / 0.1)) 0.3 = 3 := by
  constructor <;> norm_num [detProbArg, Uveg_adjust]

/-- C7: for dry snow (`SurfaceLiquidWater < 0.001`), `get_prob` is exactly 0
when `U10 <= 3`, and is monotonically non-decreasing in `U10` above the
cutoff (lines 553-583). -/
theorem c7_occurrence_probability (Tair Age SurfaceLiquidWater u1 u2 : ℝ)
    (hw : SurfaceLiquidWater < 0.001) :
    (u1 ≤ 3 → get_prob Tair Age SurfaceLiquidWater u1 = 0) ∧
    (3 < u1 → u1 ≤ u2 →
      get_prob Tair Age SurfaceLiquidWater u1 ≤ get_prob Tair Age SurfaceLiquidWater u2) := by
  have hσ : 0 < 4.3 + 0.145 * Tair + 0.00196 * Tair * Tair := by
    nlinarith [sq_nonneg (Tair + 3625 / 98)]
  constructor
  · intro hu
    simp only [get_prob, CALC_PROB]
    rw [if_pos (by norm_num : (1 : ℕ) ≠ 0), if_pos hw, if_neg (not_lt.mpr hu)]
  · intro h1 h2
    rw [get_prob_dry Tair Age SurfaceLiquidWater u1 hw h1,
      get_prob_dry Tair Age SurfaceLiquidWater u2 hw (by linarith)]
    set M := 11.2 + 0.365 * Tair + 0.00706 * Tair * Tair + 0.9 * log Age with hM
    set S := 4.3 + 0.145 * Tair + 0.00196 * Tair * Tair with hS
    have h4 : sqrt π * (M - u2) ≤ sqrt π * (M - u1) :=
      mul_le_mul_of_nonneg_left (by linarith) (sqrt_nonneg π)
    have hexp : exp (sqrt π * (M - u2) / S) ≤ exp (sqrt π * (M - u1) / S) :=
      exp_le_exp.mpr ((div_le_div_right hσ).mpr h4)
    have hpos2 : 0 < 1 + exp (sqrt π * (M - u2) / S) := by positivity
    exact one_div_le_one_div_of_le hpos2 (by linarith)

/-- Witness for C7 at `Tair = -10`, `Age = 48`, dry snow, winds 4 and 5. -/
theorem c7_witness :
    (0 : ℝ) < 0.001 ∧
    (((4 : ℝ) ≤ 3 → get_prob (-10) 48 0 4 = 0) ∧
      ((3 : ℝ) < 4 → (4 : ℝ) ≤ 5 → get_prob (-10) 48 0 4 ≤ get_prob (-10) 48 0 5)) :=
  ⟨by norm_num, c7_occurrence_probability (-10) 48 0 4 5 (by norm_num)⟩

/-- C8: if the shear equation has the same nonzero sign at both bracket
endpoints, `rtnewt` reports the bracketing failure and aborts (`exit(0)`,
lines 412-415), never returning a value. -/
theorem c8_unbracketed_root_aborts (x1 x2 acc Ur Zr : ℝ)
    (h : ((get_shear x1 Ur Zr).1 > 0 ∧ (get_shear x2 Ur Zr).1 > 0) ∨
         ((get_shear x1 Ur Zr).1 < 0 ∧ (get_shear x2 Ur Zr).1 < 0)) :
    rtnewt x1 x2 acc Ur Zr = none := by
  simp only [rtnewt]
  rw [if_pos h]

/-- Witness for C8: with `Ur = 0` and negative `Zr`, the shear equation is
`1 + 1/x^2 > 0` at both endpoints, and the solver aborts. -/
theorem c8_witness :
    ((get_shear 1 0 (-(0.12 / (2 * G_STD)))).1 > 0 ∧
      (get_shear 2 0 (-(0.12 / (2 * G_STD)))).1 > 0) ∧
    rtnewt 1 2 0.000001 0 (-(0.12 / (2 * G_STD))) = none := by
  have hpos : (get_shear 1 0 (-(0.12 / (2 * G_STD)))).1 > 0 ∧
      (get_shear 2 0 (-(0.12 / (2 * G_STD)))).1 > 0 := by
    constructor <;> norm_num [get_shear, von_K, G_STD, Real.exp_zero]
  exact ⟨hpos, c8_unbracketed_root_aborts 1 2 0.000001 0 _ (Or.inl hpos)⟩

/-- C10: if the shear equation is exactly zero at a bracket endpoint,
`rtnewt` returns that endpoint exactly, before any iteration
(lines 417-418): `x1` when `f(x1) = 0`, otherwise `x2` when `f(x2) = 0`. -/
theorem c10_exact_endpoint_root (x1 x2 acc Ur Zr : ℝ) :
    ((get_shear x1 Ur Zr).1 = 0 → rtnewt x1 x2 acc Ur Zr = some x1) ∧
    ((get_shear x1 Ur Zr).1 ≠ 0 → (get_shear x2 Ur Zr).1 = 0 →
      rtnewt x1 x2 acc Ur Zr = some x2) := by
  constructor
  · intro hfl
    have hnb : ¬ (((get_shear x1 Ur Zr).1 > 0 ∧ (get_shear x2 Ur Zr).1 > 0) ∨
        ((get_shear x1 Ur Zr).1 < 0 ∧ (get_shear x2 Ur Zr).1 < 0)) := by
      rintro (⟨h1, -⟩ | ⟨h1, -⟩) <;> rw [hfl] at h1 <;> exact lt_irrefl 0 h1
    simp only [rtnewt]
    rw [if_neg hnb, if_pos hfl]
  · intro hfl hfh
    have hnb : ¬ (((get_shear x1 Ur Zr).1 > 0 ∧ (get_shear x2 Ur Zr).1 > 0) ∨
        ((get_shear x1 Ur Zr).1 < 0 ∧ (get_shear x2 Ur Zr).1 < 0)) := by
      rintro (⟨-, h2⟩ | ⟨-, h2⟩) <;> rw [hfh] at h2 <;> exact lt_irrefl 0 h2
    simp only [rtnewt]
    rw [if_neg hnb, if_neg hfl, if_pos hfh]

/-- Witness for C10: with `Ur = 0`, `Zr = 0.12/(2 G_STD)` the equation is
`1 - 1/x^2`, zero exactly at 1; both conjuncts are exercised. -/
theorem c10_witness :
    (get_shear 1 0 (0.12 / (2 * G_STD))).1 = 0 ∧
    rtnewt 1 2 0.000001 0 (0.12 / (2 * G_STD)) = some 1 ∧
    ((get_shear 2 0 (0.12 / (2 * G_STD))).1 ≠ 0 ∧
      rtnewt 2 1 0.000001 0 (0.12 / (2 * G_STD)) = some 1) := by
  have hz : (get_shear 1 0 (0.12 / (2 * G_STD))).1 = 0 := by
    norm_num [get_shear, von_K, G_STD, Real.exp_zero]
  have hnz : (get_shear 2 0 (0.12 / (2 * G_STD))).1 ≠ 0 := by
    norm_num [get_shear, von_K, G_STD, Real.exp_zero]
  exact ⟨hz, (c10_exact_endpoint_root 1 2 0.000001 0 _).1 hz,
    hnz, (c10_exact_endpoint_root 2 1 0.000001 0 _).2 hnz hz⟩

/-- C4: with `snowdepth > 0` and `EactAir >= es` (the internally derived
saturation vapor pressure `svp Tair`), the flux contribution taken from the
Flux Assembler is exactly 0 for every wind interval regardless of wind speed
— the guard at lines 264 and 300 fails and `SubFlux = 0` — and hence the
accumulated total is 0 (unless the root solver aborts the process first,
which returns no value at all). -/
theorem c4_saturated_air_zero_flux (Dt Tair : ℝ) (LastSnow : ℤ)
    (SurfaceLiquidWater Wind Ls AirDens Press EactAir ZO2 Zrh snowdepth
      lag_one sigma_slope Tsnow : ℝ) (iveg Nveg : ℤ)
    (fe displacement roughness u10Uninit : ℝ)
    (hsd : 0 < snowdepth) (hsat : svp Tair ≤ EactAir) :
    (∀ (Tair2 Age2 SLW2 EactAir2 es2 Zrh2 AirDens2 fe2 Tsnow2 ZO22 F2 Uo2
        sigma_w2 hv2 Nd2 sd2 : ℝ) (p : ℕ), es2 ≤ EactAir2 →
      intervalContribution Tair2 Age2 SLW2 EactAir2 es2 Zrh2 AirDens2 fe2 Tsnow2
        ZO22 F2 Uo2 sigma_w2 hv2 Nd2 sd2 p = some 0 ∨
      intervalContribution Tair2 Age2 SLW2 EactAir2 es2 Zrh2 AirDens2 fe2 Tsnow2
        ZO22 F2 Uo2 sigma_w2 hv2 Nd2 sd2 p = none) ∧
    (CalcBlowingSnow Dt Tair LastSnow SurfaceLiquidWater Wind Ls AirDens Press
        EactAir ZO2 Zrh snowdepth lag_one sigma_slope Tsnow iveg Nveg fe
        displacement roughness u10Uninit = some 0 ∨
     CalcBlowingSnow Dt Tair LastSnow SurfaceLiquidWater Wind Ls AirDens Press
        EactAir ZO2 Zrh snowdepth lag_one sigma_slope Tsnow iveg Nveg fe
        displacement roughness u10Uninit = none) := by
  refine ⟨fun Tair2 Age2 SLW2 EactAir2 es2 Zrh2 AirDens2 fe2 Tsnow2 ZO22 F2 Uo2
      sigma_w2 hv2 Nd2 sd2 p hse =>
    interval_zero_when_saturated Tair2 Age2 SLW2 EactAir2 es2 Zrh2 AirDens2 fe2
      Tsnow2 ZO22 F2 Uo2 sigma_w2 hv2 Nd2 sd2 p hse, ?_⟩
  have hbt : blowingTotal Dt Tair LastSnow SurfaceLiquidWater Wind Ls AirDens Press
      EactAir ZO2 Zrh snowdepth lag_one sigma_slope Tsnow iveg Nveg fe
      displacement roughness u10Uninit = some 0 ∨
      blowingTotal Dt Tair LastSnow SurfaceLiquidWater Wind Ls AirDens Press
      EactAir ZO2 Zrh snowdepth lag_one sigma_slope Tsnow iveg Nveg fe
      displacement roughness u10Uninit = none := by
    simp only [blowingTotal]
    rw [if_pos hsd]
    split_ifs with hsw
    · simp only [loopTotal]
      exact aux_foldl_zero _ (List.range NUMINCS) 0 fun p _ =>
        interval_zero_when_saturated _ _ _ _ _ _ _ _ _ _ _ _ _ _ _ _ p hsat
    · simp only [detTotal]
      cases hs : shear_stress (wind10 Wind ZO2) ZO2 with
      | none => right; rfl
      | some us =>
        left
        rw [Option.some_bind]
        split_ifs with hcond
        · exact absurd hcond.2 (not_lt.mpr hsat)
        · norm_num
  unfold CalcBlowingSnow
  rcases hbt with hh | hh
  · left; rw [hh]; norm_num
  · right; rw [hh]; rfl

/-- Witness for C4 at `Tair = 0`, `EactAir = 611 >= svp 0`, `snowdepth = 1`. -/
theorem c4_witness :
    ((0 : ℝ) < 1 ∧ svp 0 ≤ 611) ∧
    (CalcBlowingSnow 1 0 0 0 0 0 0 0 611 1 1 1 0 0 0 0 1 0 1 1 0 = some 0 ∨
     CalcBlowingSnow 1 0 0 0 0 0 0 0 611 1 1 1 0 0 0 0 1 0 1 1 0 = none) := by
  have hs : svp 0 ≤ 611 := by norm_num [svp, Real.exp_zero]
  exact ⟨⟨by norm_num, hs⟩,
    (c4_saturated_air_zero_flux 1 0 0 0 0 0 0 0 611 1 1 1 0 0 0 0 1 0 1 1 0
      (by norm_num) hs).2⟩

/-- C9: on every validly bracketed input (opposite nonzero signs at the
endpoints) on which the loop runs through all `MAX_ITER = 100` iterations
without any early return — in particular without the step magnitude falling
below the tolerance — `rtnewt` returns the fixed fallback `0.025`
(lines 452-454) instead of propagating a convergence failure. -/
theorem c9_iteration_exhaustion_fallback (x1 x2 acc Ur Zr : ℝ)
    (hbr : ¬ (((get_shear x1 Ur Zr).1 > 0 ∧ (get_shear x2 Ur Zr).1 > 0) ∨
        ((get_shear x1 Ur Zr).1 < 0 ∧ (get_shear x2 Ur Zr).1 < 0)))
    (h1 : (get_shear x1 Ur Zr).1 ≠ 0) (h2 : (get_shear x2 Ur Zr).1 ≠ 0)
    (hex : (rtnewtSteps Ur Zr acc x1 MAX_ITER (rtnewtInit x1 x2 Ur Zr)).isSome) :
    rtnewt x1 x2 acc Ur Zr = some 0.025 := by
  have key : ∀ (n : ℕ) (s : RtState), (rtnewtSteps Ur Zr acc x1 n s).isSome →
      rtnewtGo Ur Zr acc x1 n s = 0.025 := by
    intro n
    induction n with
    | zero => intro s _; rfl
    | succ k ih =>
      intro s hs
      cases hstep : rtnewtStep Ur Zr acc x1 s with
      | inl v => rw [rtnewtSteps_succ_inl hstep] at hs; simp at hs
      | inr t =>
        rw [rtnewtSteps_succ_inr hstep] at hs
        rw [rtnewtGo_succ_inr hstep]
        exact ih t hs
  simp only [rtnewt]
  rw [if_neg hbr, if_neg h1, if_neg h2, key MAX_ITER _ hex]

/-- Witness for C9: with `Ur = 0`, `Zr = 0.12/G_STD`, bracket `[1/2, 2]` and
a negative tolerance, all three early-return conditions are provably never
taken (the iterates are rational, the root is the irrational `sqrt 2`, and
`|dx| < -1` is impossible), so the solver exhausts its budget and returns
`0.025`. -/
theorem c9_witness :
    ((get_shear (1 / 2 : ℝ) 0 (0.12 / G_STD)).1 ≠ 0 ∧
      (get_shear (2 : ℝ) 0 (0.12 / G_STD)).1 ≠ 0) ∧
    rtnewt (1 / 2) 2 (-1) 0 (0.12 / G_STD) = some 0.025 := by
  have hfl : (get_shear (1 / 2 : ℝ) 0 (0.12 / G_STD)).1 = -7 := by
    rw [aux9_f]; norm_num
  have hfh : (get_shear (2 : ℝ) 0 (0.12 / G_STD)).1 = 1 / 2 := by
    rw [aux9_f]; norm_num
  have hbr : ¬ (((get_shear (1 / 2 : ℝ) 0 (0.12 / G_STD)).1 > 0 ∧
      (get_shear (2 : ℝ) 0 (0.12 / G_STD)).1 > 0) ∨
      ((get_shear (1 / 2 : ℝ) 0 (0.12 / G_STD)).1 < 0 ∧
      (get_shear (2 : ℝ) 0 (0.12 / G_STD)).1 < 0)) := by
    rw [hfl, hfh]
    rintro (⟨ha, -⟩ | ⟨-, hb⟩)
    · norm_num at ha
    · norm_num at hb
  refine ⟨⟨by rw [hfl]; norm_num, by rw [hfh]; norm_num⟩, ?_⟩
  exact c9_iteration_exhaustion_fallback (1 / 2) 2 (-1) 0 (0.12 / G_STD) hbr
    (by rw [hfl]; norm_num) (by rw [hfh]; norm_num)
    (inv9_steps MAX_ITER _ inv9_init)

end

end BlowingSnow
